import Mathlib

/-!
Verification development for the clinical-scribe pipeline
(`services/geminiService` and `hooks/useAudioRecorder`).

The pipeline stages (`processAudioSegment`, `cleanupTranscript`,
`generateSoapNote`, `generatePrescription`, `generateClinicalNote`) are
shallowly embedded as pure Lean functions.  Each call to the external
reasoning service (`ai.models.generateContent`) is modelled by a
caller-supplied oracle `svc : GenRequest → SvcAnswer`: the request record
carries exactly the fields the source puts into the call, and the answer is
either a thrown transport error (`Except.error`) or a response whose `text`
field is absent, empty, or a string.  JavaScript `a || b` on an optional
string is modelled by `jsOr`.  With this embedding every stage is a total
function: the `try`/`catch` of the source appears as the `match` on the
oracle answer, so "never raises" is totality of the Lean definition.
-/

/-- The `text` field of a reasoning-service response, or a thrown error.
`Except.error ()` models a thrown exception caught by the stage,
`Except.ok none` models a response object whose `text` is `undefined`,
`Except.ok (some s)` a response with text `s`. -/
abbrev SvcAnswer := Except Unit (Option String)

/-- JavaScript `a || b` where `a` is an optional string: `undefined` and the
empty string are falsy, so both select `b`. -/
def jsOr (a : Option String) (b : String) : String :=
  match a with
  | none => b
  | some s => if s = "" then b else s

/-- One request to the external reasoning service, as built by the stages of
`services/geminiService`: model name, the `contents` payload (rendered as
text; for the transcription stage the binary audio part is carried
separately in `TranscribeRequest`), the system instruction, and the
temperature. -/
structure GenRequest where
  model : String
  contents : String
  systemInstruction : String
  temperature : Nat
deriving DecidableEq, Repr

/-- `DoctorProfile` as used by the source (`App.tsx` initialises it with
string fields `qualification` and `canPrescribeAllopathic`); its declaring
file `types.ts` is not under src/, so the shape is taken from those uses and
from the spec. -/
structure DoctorProfile where
  qualification : String
  canPrescribeAllopathic : String
deriving DecidableEq, Repr

/-- A diarized utterance `{ speaker, text }` produced by the transcription
stage. -/
structure Utterance where
  speaker : String
  text : String
deriving DecidableEq, Repr

/-- Modelled from the spec: `JSON.stringify(prescriptionDictionary)`, the
serialized static read-only drug dictionary imported from
`../prescription_dictionary`, whose file is not under src/.  The spec
describes it as a mapping from medical-term variants to canonical names. -/
def dictionaryContext : String :=
  "\x7b\"paracetamol\":\"Paracetamol\",\"aspirin\":\"Aspirin\",\"amoxicillin\":\"Amoxicillin\"\x7d"

/-- Modelled from the spec: `JSON.stringify(CLINICAL_PROTOCOLS)`, the
serialized static read-only clinical-protocol reference imported from
`../knowledgeBase`, whose file is not under src/. -/
def protocolsContext : String :=
  "[\x7b\"condition\":\"Fever\",\"protocol\":\"Supportive care\"\x7d]"

/-- Modelled from the spec: the drug dictionary itself as a variant →
canonical-name mapping (the dictionary collaborator of spec section 6); used
only to state the medication-subset property of claim C1. -/
def prescriptionDictionary : List (String × String) :=
  [("paracetamol", "Paracetamol"), ("aspirin", "Aspirin"),
   ("amoxicillin", "Amoxicillin")]

/-- `pat` occurs as a contiguous run inside `l`. -/
def charsContain (l pat : List Char) : Bool :=
  match l with
  | [] => pat.isEmpty
  | _ :: rest => pat.isPrefixOf l || charsContain rest pat

/-- `pat` occurs as a substring of `s`. -/
def strContains (s pat : String) : Bool :=
  charsContain s.data pat.data

/-- Split a character list at every occurrence of `c` (model of splitting a
string into lines at a separator character). -/
def splitOnChar (c : Char) : List Char → List (List Char)
  | [] => [[]]
  | x :: xs =>
    let r := splitOnChar c xs
    if x = c then [] :: r
    else
      match r with
      | [] => [[x]]
      | y :: ys => (x :: y) :: ys

/-- Take characters up to (not including) the first occurrence of the
separator sequence `sep`. -/
def takeUntilSeq (sep : List Char) : List Char → List Char
  | [] => []
  | x :: xs => if sep.isPrefixOf (x :: xs) then [] else x :: takeUntilSeq sep xs

/-- The medication name of one plan line, when the line has the fixed
pipe-delimited shape the prescription stage is specified to emit
(leading dash-space, then at least one field separator): the text between
the dash and the first field separator. -/
def medLineName (line : List Char) : Option String :=
  if ['-', ' '].isPrefixOf line && charsContain (line.drop 2) [' ', '|', ' '] then
    some (String.mk (takeUntilSeq [' ', '|', ' '] (line.drop 2)))
  else none

/-- All medication names emitted in a rendered prescription plan: the name
field of every pipe-delimited medication line. -/
def planMedNames (plan : String) : List String :=
  (splitOnChar '\n' plan.data).filterMap medLineName

/-- The medications explicitly named in a text, after dictionary
normalization: the canonical names of all dictionary variants occurring as
substrings of the text. -/
def medsInText (dict : List (String × String)) (text : String) : List String :=
  (dict.filter fun p => strContains text p.1).map (·.2)

/-- The request built by `processAudioSegment`: system instruction with the
diarization/context/language rules, the audio part, and a short text part;
JSON output contract with the utterance schema, temperature 0. -/
structure TranscribeRequest where
  model : String
  audioData : String
  audioMime : String
  userText : String
  systemInstruction : String
  temperature : Nat
deriving DecidableEq, Repr

/-- The system instruction `processAudioSegment` sends, built from the
previous context and the language exactly as in the source template
literal. -/
def transcribeSystemInstruction (language previousContext : String) : String :=
  "\n    You are an expert Medical Scribe. \n    TASK: Transcribe this clinical audio segment verbatim.\n    DIARIZATION: Identify \"Doctor\" and \"Patient\". \n    CONTEXT: Use previous dialogue for speaker consistency: \"" ++
  previousContext ++
  "\"\n    \n    CRITICAL LANGUAGE RULE: You MUST output the transcript strictly in the native script of " ++
  language ++
  ". \n    Example: If " ++ language ++
  " is Hindi, use Devanagari. Do NOT use Romanized script (Hinglish).\n    \n    RULES: \n    1. Return ONLY valid JSON array of objects.\n    2. Do NOT use markdown formatting.\n  "

/-- The full request `processAudioSegment` sends: note that `doctorProfile`
appears nowhere in it. -/
def transcribeRequest (base64Audio mimeType language previousContext : String) :
    TranscribeRequest :=
  { model := "gemini-3-flash-preview"
    audioData := base64Audio
    audioMime := mimeType
    userText := "Transcribe strictly in the native script of " ++ language ++ "."
    systemInstruction := transcribeSystemInstruction language previousContext
    temperature := 0 }

/-- `processAudioSegment` from `services/geminiService`: sends the audio
segment plus context to the reasoning service and parses the JSON response
into utterances; any thrown error (transport or `JSON.parse`) is caught and
yields `null` (here `none`).  `svc` is the reasoning-service oracle and
`parseJson` models the JavaScript `JSON.parse` builtin applied under the
declared response schema (it throws, `Except.error`, on unparsable text).
The `doctorProfile` parameter is accepted, as in the source, and unused. -/
def processAudioSegment (base64Audio mimeType language : String)
    (doctorProfile : DoctorProfile) (previousContext : String)
    (svc : TranscribeRequest → SvcAnswer)
    (parseJson : String → Except Unit (List Utterance)) :
    Option (List Utterance) :=
  match svc (transcribeRequest base64Audio mimeType language previousContext) with
  | .error _ => none
  | .ok t =>
    match parseJson (jsOr t "[]") with
    | .error _ => none
    | .ok us => some us

/-- The system instruction `cleanupTranscript` sends, with the dictionary
reference inlined, as in the source template literal. -/
def cleanupSystemInstruction (language : String) : String :=
  "\n    You are an expert Medical Editor.\n    TASK: Clean up the following medical transcript.\n    \n    CLEANUP RULES:\n    1. Remove filler words (um, ah, like, you know).\n    2. Correct diarization errors if they seem obvious.\n    3. CRITICAL: Correct any misspelled medical terms, symptoms, or medications using the provided dictionary as a reference.\n    4. HARD RULE: Do NOT add any medications that were not explicitly mentioned in the raw transcript. Only correct spellings of mentioned ones.\n    5. Keep the output strictly in the native script of " ++
  language ++
  ".\n    6. Maintain the original meaning and conversational flow, but make it professional.\n    \n    DICTIONARY REFERENCE:\n    " ++
  dictionaryContext ++ "\n  "

/-- The request `cleanupTranscript` sends. -/
def cleanupRequest (transcript language : String) : GenRequest :=
  { model := "gemini-3-flash-preview"
    contents := "Raw Transcript:\n" ++ transcript
    systemInstruction := cleanupSystemInstruction language
    temperature := 0 }

/-- `cleanupTranscript` from `services/geminiService`: asks the service to
clean the transcript; `response.text || transcript` on success, and the
caught-error branch also returns `transcript`. -/
def cleanupTranscript (transcript language : String)
    (svc : GenRequest → SvcAnswer) : String :=
  match svc (cleanupRequest transcript language) with
  | .error _ => transcript
  | .ok t => jsOr t transcript

/-- The system instruction `generateSoapNote` sends. -/
def soapSystemInstruction (language : String) : String :=
  "\n    You are an expert clinical documentalist.\n    TASK: Generate a professional SOAP note from the cleaned transcript.\n    \n    STRICT LANGUAGE RULE: All content MUST be written strictly in the native script of " ++
  language ++
  ".\n    \n    STRUCTURE RULES:\n    1. Use exactly these headers: ## Subjective, ## Objective, ## Assessment.\n    2. SUBJECTIVE: List patient symptoms in short bullet points.\n    3. OBJECTIVE: List physical findings or observations if any.\n    4. ASSESSMENT: List suspected diagnoses or findings as short bullet points.\n    5. DO NOT include a \"Plan\" or \"Prescription\" section here.\n    6. NO markdown formatting within sections (bold/italics).\n  "

/-- The request `generateSoapNote` sends. -/
def soapRequest (cleanedTranscript language : String) : GenRequest :=
  { model := "gemini-3-flash-preview"
    contents := "Cleaned Transcript:\n" ++ cleanedTranscript
    systemInstruction := soapSystemInstruction language
    temperature := 0 }

/-- `generateSoapNote` from `services/geminiService`: `response.text || ''`
on success; the caught-error branch returns the fixed sentinel. -/
def generateSoapNote (cleanedTranscript language : String)
    (svc : GenRequest → SvcAnswer) : String :=
  match svc (soapRequest cleanedTranscript language) with
  | .error _ => "Error generating SOAP note."
  | .ok t => jsOr t ""

/-- The system instruction `generatePrescription` sends, with dictionary and
protocol references inlined. -/
def prescriptionSystemInstruction (language : String) : String :=
  "\n    You are an expert clinical pharmacologist.\n    TASK: Extract and format the medication plan (Prescription) from the transcript.\n    \n    REFERENCE DATA:\n    - Dictionary: " ++
  dictionaryContext ++
  "\n    - Clinical Protocols: " ++
  protocolsContext ++
  "\n    \n    RULES:\n    1. HEADER: Use \"## Plan\".\n    2. HARD RULE: Only extract drugs that were EXPLICITLY mentioned in the cleaned transcript. Do NOT hallucinate or suggest additional drugs.\n    3. VALIDATION RULE: You MUST validate and extract four parameters for every medication:\n       - Name: Validate against the Dictionary.\n       - Dosage: Extract the specific dose mentioned (e.g., 500mg, 1 tablet).\n       - Frequency: Extract how often (e.g., once daily, BD).\n       - Route: Extract the route (e.g., Oral, IV).\n    4. MEDICINE FORMAT: \"- Medicine Name | Dosage | Frequency | Route\". \n       Example: \"- Paracetamol | 500mg | Twice daily | Oral\"\n       If a parameter is missing, mark it as \"Not specified\".\n    5. ADVICE: List all other instructions (diet, follow-up, warnings) in short bullet points.\n    6. ACCURACY: Cross-reference with the Dictionary and Clinical Protocols to ensure correct spellings.\n    7. LANGUAGE: Write strictly in the native script of " ++
  language ++
  ".\n    8. NO markdown formatting within sections (bold/italics).\n  "

/-- The request `generatePrescription` sends. -/
def prescriptionRequest (cleanedTranscript language : String) : GenRequest :=
  { model := "gemini-3-flash-preview"
    contents := "Cleaned Transcript:\n" ++ cleanedTranscript
    systemInstruction := prescriptionSystemInstruction language
    temperature := 0 }

/-- `generatePrescription` from `services/geminiService`: `response.text ||
''` on success; the caught-error branch returns the fixed sentinel.  The
response text is forwarded without any programmatic filtering or
validation. -/
def generatePrescription (cleanedTranscript language : String)
    (svc : GenRequest → SvcAnswer) : String :=
  match svc (prescriptionRequest cleanedTranscript language) with
  | .error _ => "Error generating prescription."
  | .ok t => jsOr t ""

/-- `generateClinicalNote` from `services/geminiService`: cleanup, then SOAP
note and prescription both from the same cleaned transcript, composed with
one blank line.  Each stage gets its own service oracle (each is a distinct
call in the source).  The stages are total, so the outer `try`/`catch` of
the source can never fire; the function is total.  The `doctorProfile`
parameter is accepted, as in the source, and passed to no stage. -/
def generateClinicalNote (transcript : String) (doctorProfile : DoctorProfile)
    (language : String) (svcCleanup svcSoap svcPlan : GenRequest → SvcAnswer) :
    String :=
  let cleanedTranscript := cleanupTranscript transcript language svcCleanup
  let soapNote := generateSoapNote cleanedTranscript language svcSoap
  let prescription := generatePrescription cleanedTranscript language svcPlan
  soapNote ++ "\n\n" ++ prescription

/-!
Embedding of `hooks/useAudioRecorder.ts`.

The hook's React state (`isRecording`, `isPaused`, `error`) and refs
(`mediaRecorderRef`, `audioChunksRef`, `segmentTimerRef`) are collected into
one `HookState` record.  The browser `MediaRecorder` is modelled with its
device stream, its state machine, and the audio bytes it has buffered but
not yet delivered (`pending`); `recorder.requestData()` and `recorder.stop()`
deliver that buffer as a `dataavailable` event, whose handler appends the
blob to `audioChunks` iff its size is positive.  `getUserMedia` is modelled
as an `Except`-valued device outcome passed to `startRecording`; the timer
armed by `setInterval` is modelled by recording its interval in
`segmentTimer`, and one firing of the timer callback (together with its
inner `setTimeout`) is the function `segmentTick`.
-/

/-- The state machine of a browser `MediaRecorder`. -/
inductive RecState
  | recording
  | paused
  | inactive
deriving DecidableEq, Repr

/-- One track of a captured device stream; `stopped` records whether
`track.stop()` has been called on it. -/
structure Track where
  stopped : Bool
deriving DecidableEq, Repr

/-- The device stream returned by `getUserMedia`. -/
structure MediaStream where
  tracks : List Track
deriving DecidableEq, Repr

/-- A binary blob: its bytes and MIME type.  `Blob.size` is its byte
count. -/
structure Blob where
  data : List Nat
  type : String
deriving DecidableEq, Repr

/-- The byte count of a blob. -/
def Blob.size (b : Blob) : Nat := b.data.length

/-- A `MediaRecorder`: the stream it records, its state, the bytes it has
buffered but not yet delivered via `dataavailable`, and its MIME type. -/
structure Recorder where
  stream : MediaStream
  state : RecState
  pending : List Nat
  mimeType : String
deriving DecidableEq, Repr

/-- The hook's state: React state plus refs of `useAudioRecorder`.
`segmentTimer` holds the interval (ms) of the armed `setInterval` timer, or
`none` when no timer is armed. -/
structure HookState where
  isRecording : Bool
  isPaused : Bool
  error : Option String
  mediaRecorder : Option Recorder
  audioChunks : List Blob
  segmentTimer : Option Nat
deriving DecidableEq, Repr

/-- The options object accepted by `startRecording`: whether an `onSegment`
callback was supplied, and the optional `segmentDuration` (ms). -/
structure StartOptions where
  hasOnSegment : Bool
  segmentDuration : Option Nat
deriving DecidableEq, Repr

/-- The `ondataavailable` handler: append the event's blob to the chunk
list iff `event.data.size > 0`. -/
def pushChunk (chunks : List Blob) (b : Blob) : List Blob :=
  if b.size > 0 then chunks ++ [b] else chunks

/-- `startRecording` from `useAudioRecorder`: clears the error state first
(`setError(null)` precedes the re-entry guard), is a guard-return when a
recorder handle exists or `isRecording` is set, and otherwise acts on the
device-acquisition outcome: on failure it records the error message and
leaves `isRecording` false; on success it installs a fresh recorder over the
acquired stream, resets the chunk list, arms the segment timer (interval
`segmentDuration`, defaulting to 20000) iff an `onSegment` callback was
supplied, and starts recording. -/
def startRecording (s : HookState) (options : StartOptions)
    (device : Except Unit MediaStream) : HookState :=
  let s0 := { s with error := none }
  if s0.mediaRecorder.isSome || s0.isRecording then s0
  else
    match device with
    | .error _ =>
      { s0 with error := some "Microphone access denied.", isRecording := false }
    | .ok stream =>
      { s0 with
        mediaRecorder := some
          { stream := stream
            state := RecState.recording
            pending := []
            mimeType := "audio/webm;codecs=opus" }
        audioChunks := []
        segmentTimer :=
          if options.hasOnSegment then some (options.segmentDuration.getD 20000)
          else none
        isRecording := true
        isPaused := false }

/-- New audio delivered by the capture device into the recorder's internal
buffer between timer firings (the device's own buffering, invisible to the
hook until a `dataavailable` event). -/
def deliver (s : HookState) (bytes : List Nat) : HookState :=
  match s.mediaRecorder with
  | none => s
  | some r => { s with mediaRecorder := some { r with pending := r.pending ++ bytes } }

/-- One firing of the segment timer armed by `startRecording`: when the
recorder is in the `recording` state, `requestData()` delivers the buffered
bytes as a `dataavailable` event (appended to `audioChunks` iff non-empty),
and the inner `setTimeout` callback then, if the chunk list is non-empty,
builds the full blob of ALL chunks so far and emits it to `onSegment`.
Returns the new state and the emitted blob, if any. -/
def segmentTick (s : HookState) : HookState × Option Blob :=
  match s.mediaRecorder with
  | none => (s, none)
  | some r =>
    if r.state = RecState.recording then
      let s1 := { s with
        audioChunks := pushChunk s.audioChunks { data := r.pending, type := r.mimeType }
        mediaRecorder := some { r with pending := [] } }
      if s1.audioChunks.length > 0 then
        (s1, some { data := (s1.audioChunks.map Blob.data).flatten, type := r.mimeType })
      else (s1, none)
    else (s, none)

/-- `stopRecording` from `useAudioRecorder`: clears the segment timer; with
no recorder handle it resolves `null` at once; otherwise `recorder.stop()`
(when the recorder is not already inactive) delivers the final buffered
bytes as a last `dataavailable` event, and `onstop` runs
`cleanupAndResolve`: build the full blob from all chunks, stop every track
of the recorder's stream, clear the recorder handle and the chunk list,
reset the flags, and resolve the blob when its size is positive, else
`null`.  The third component is the device stream after its tracks were
stopped (`none` when there was no recorder to release). -/
def stopRecording (s : HookState) : HookState × Option Blob × Option MediaStream :=
  let s0 := { s with segmentTimer := none }
  match s0.mediaRecorder with
  | none => (s0, none, none)
  | some r =>
    let chunks :=
      if r.state ≠ RecState.inactive then
        pushChunk s0.audioChunks { data := r.pending, type := r.mimeType }
      else s0.audioChunks
    let mime := if r.mimeType = "" then "audio/webm" else r.mimeType
    let audioBlob : Blob := { data := (chunks.map Blob.data).flatten, type := mime }
    let releasedStream : MediaStream :=
      { tracks := r.stream.tracks.map fun _ => { stopped := true } }
    let s1 := { s0 with
      mediaRecorder := none
      audioChunks := []
      isRecording := false
      isPaused := false }
    (s1, if audioBlob.size > 0 then some audioBlob else none, some releasedStream)

/-- The cumulative-emission reference stream for claim C8: starting from
already-captured bytes `acc`, after each device delivery the running total
grows by the delivered bytes, and a segment is emitted containing the whole
running total, except when the total is still empty. -/
def cumEmissions (acc : List Nat) : List (List Nat) → List (List Nat)
  | [] => []
  | d :: ds =>
    let acc1 := acc ++ d
    (if acc1.isEmpty then [] else [acc1]) ++ cumEmissions acc1 ds

/-- Run the capture loop: for each element of `deliveries`, the device
delivers those bytes into the recorder's buffer and then the segment timer
fires once; collect the bytes of every emitted segment in order. -/
def runTicks (s : HookState) : List (List Nat) → List (List Nat)
  | [] => []
  | d :: ds =>
    let s1 := deliver s d
    let p := segmentTick s1
    (match p.2 with
     | some b => [b.data]
     | none => []) ++ runTicks p.1 ds

/-- Claim C2: for every input and every behavior of the three reasoning-service
calls, `generateClinicalNote` runs the cleanup stage on the transcript, feeds
the one cleaned transcript to both the SOAP-note stage and the prescription
stage, and returns exactly the note text, one blank line, and the plan text.
The equation holds for every oracle, including every failing one, and the
function is total, so no internal failure can escape as an exception. -/
theorem generateClinicalNote_composition (transcript : String)
    (profile : DoctorProfile) (language : String)
    (svcCleanup svcSoap svcPlan : GenRequest → SvcAnswer) :
    generateClinicalNote transcript profile language svcCleanup svcSoap svcPlan =
      generateSoapNote (cleanupTranscript transcript language svcCleanup)
          language svcSoap
        ++ "\n\n"
        ++ generatePrescription (cleanupTranscript transcript language svcCleanup)
          language svcPlan := rfl

/-- Claim C3: when the reasoning-service call inside `cleanupTranscript`
fails — it throws, or its response carries no text (absent or empty) — the
stage returns the original transcript unchanged. -/
theorem cleanupTranscript_failOpen (transcript language : String)
    (svc : GenRequest → SvcAnswer)
    (h : svc (cleanupRequest transcript language) = .error ()
       ∨ svc (cleanupRequest transcript language) = .ok none
       ∨ svc (cleanupRequest transcript language) = .ok (some "")) :
    cleanupTranscript transcript language svc = transcript := by
  unfold cleanupTranscript
  rcases h with h | h | h <;> rw [h] <;> simp [jsOr]

/-- Witness for `cleanupTranscript_failOpen` at a throwing service. -/
theorem cleanupTranscript_failOpen_witness :
    cleanupTranscript "Doctor: patient has fever." "English" (fun _ => .error ())
      = "Doctor: patient has fever." :=
  cleanupTranscript_failOpen "Doctor: patient has fever." "English"
    (fun _ => .error ()) (Or.inl rfl)

/-- Claim C4, counterexample: when the reasoning-service call succeeds but its
response carries no text, `generateSoapNote` and `generatePrescription` both
return the empty string — an output indistinguishable from nothing to
report — not a non-empty sentinel, so the claim as stated fails. -/
theorem stage_sentinel_counterexample :
    generateSoapNote "Patient has fever." "English" (fun _ => .ok none) = ""
    ∧ generatePrescription "Patient has fever." "English" (fun _ => .ok none) = "" :=
  ⟨rfl, rfl⟩

/-- Claim C4 as amended: on a thrown service failure, `generateSoapNote` and
`generatePrescription` each return their fixed non-empty sentinel string; but
on a service success whose response has no text, each returns the empty
string. -/
theorem stage_sentinels (cleaned language : String)
    (svcSoap svcPlan : GenRequest → SvcAnswer)
    (hS : svcSoap (soapRequest cleaned language) = .error ())
    (hP : svcPlan (prescriptionRequest cleaned language) = .error ()) :
    generateSoapNote cleaned language svcSoap = "Error generating SOAP note."
    ∧ generatePrescription cleaned language svcPlan = "Error generating prescription."
    ∧ "Error generating SOAP note." ≠ ""
    ∧ "Error generating prescription." ≠ ""
    ∧ generateSoapNote cleaned language (fun _ => .ok none) = ""
    ∧ generatePrescription cleaned language (fun _ => .ok none) = "" := by
  unfold generateSoapNote generatePrescription
  rw [hS, hP]
  exact ⟨rfl, rfl, by decide, by decide, rfl, rfl⟩

/-- Witness for `stage_sentinels` at a throwing service. -/
theorem stage_sentinels_witness :
    generateSoapNote "Patient has fever." "English" (fun _ => .error ())
        = "Error generating SOAP note."
    ∧ generatePrescription "Patient has fever." "English" (fun _ => .error ())
        = "Error generating prescription." :=
  ⟨(stage_sentinels "Patient has fever." "English"
      (fun _ => .error ()) (fun _ => .error ()) rfl rfl).1,
   (stage_sentinels "Patient has fever." "English"
      (fun _ => .error ()) (fun _ => .error ()) rfl rfl).2.1⟩

/-- Claim C10: `processAudioSegment` is independent of the `doctorProfile`
argument — for any two profiles and otherwise identical inputs and service
behavior, the request sent and the returned result are the same.  The
profile appears nowhere in `transcribeRequest`, so this holds
definitionally. -/
theorem processAudioSegment_profile_independent
    (base64Audio mimeType language previousContext : String)
    (p q : DoctorProfile) (svc : TranscribeRequest → SvcAnswer)
    (parseJson : String → Except Unit (List Utterance)) :
    processAudioSegment base64Audio mimeType language p previousContext
        svc parseJson
      = processAudioSegment base64Audio mimeType language q previousContext
        svc parseJson := rfl

/-- A doctor profile used to exhibit profile-independence of the record
pipeline. -/
def profileA : DoctorProfile :=
  { qualification := "BAMS", canPrescribeAllopathic := "no" }

/-- A second, different doctor profile. -/
def profileB : DoctorProfile :=
  { qualification := "MBBS", canPrescribeAllopathic := "yes" }

/-- Claim C9, counterexample: two different doctor profiles produce the
identical clinical record on otherwise identical inputs and service
behavior — the profile is not threaded into the cleanup, note, or
prescription stages at all (none of those functions takes it in the source),
so it cannot influence any stage's phrasing or scope. -/
theorem doctorProfile_not_threaded_counterexample :
    profileA ≠ profileB
    ∧ generateClinicalNote "Patient has fever." profileA "English"
        (fun _ => .ok (some "cleaned")) (fun _ => .ok (some "note"))
        (fun _ => .ok (some "plan"))
      = generateClinicalNote "Patient has fever." profileB "English"
        (fun _ => .ok (some "cleaned")) (fun _ => .ok (some "note"))
        (fun _ => .ok (some "plan")) :=
  ⟨by decide, rfl⟩

/-- Claim C9 as amended: the doctor profile is accepted by the orchestrator
(and by the transcription stage) but is not passed to the cleanup, clinical
note, or prescription stages; no stage mutates it, and the produced record
is independent of it. -/
theorem generateClinicalNote_profile_independent (transcript language : String)
    (p q : DoctorProfile) (svcCleanup svcSoap svcPlan : GenRequest → SvcAnswer) :
    generateClinicalNote transcript p language svcCleanup svcSoap svcPlan
      = generateClinicalNote transcript q language svcCleanup svcSoap svcPlan := rfl

/-- Claim C1, counterexample: `generatePrescription` forwards the
reasoning-service response text without any programmatic filtering, so a run
whose service response names a drug emits that drug even when the cleaned
transcript names no medication at all: here the plan emits Aspirin while the
cleaned input "Patient reports fever and headache." supports no medication
under dictionary normalization. -/
theorem prescription_subset_counterexample :
    "Aspirin" ∈ planMedNames (generatePrescription
        "Patient reports fever and headache." "English"
        (fun _ => .ok (some "## Plan\n- Aspirin | 500mg | Once daily | Oral")))
    ∧ medsInText prescriptionDictionary "Patient reports fever and headache."
        = [] := by
  exact ⟨by decide, by decide⟩

/-- Claim C1 as amended: the stage enforces the no-hallucination invariant
only through its prompt (the HARD RULE in the system instruction), not in
code; the emitted plan is the service response text verbatim (or a sentinel
or empty string), so the medication set of the plan is a subset of the
medications named in the cleaned transcript exactly in those runs where the
service response itself satisfies that subset property. -/
theorem generatePrescription_subset_conditional (cleaned language : String)
    (svc : GenRequest → SvcAnswer)
    (h : ∀ t : String,
        svc (prescriptionRequest cleaned language) = .ok (some t) →
        ∀ m ∈ planMedNames t, m ∈ medsInText prescriptionDictionary cleaned) :
    ∀ m ∈ planMedNames (generatePrescription cleaned language svc),
      m ∈ medsInText prescriptionDictionary cleaned := by
  intro m hm
  cases hsvc : svc (prescriptionRequest cleaned language) with
  | error e =>
    cases e
    have hout : generatePrescription cleaned language svc
        = "Error generating prescription." := by
      unfold generatePrescription; rw [hsvc]
    rw [hout] at hm
    have hz : planMedNames "Error generating prescription." = [] := by decide
    rw [hz] at hm
    cases hm
  | ok t =>
    cases t with
    | none =>
      have hout : generatePrescription cleaned language svc = "" := by
        unfold generatePrescription; rw [hsvc]; rfl
      rw [hout] at hm
      cases hm
    | some s =>
      by_cases hs : s = ""
      · subst hs
        have hout : generatePrescription cleaned language svc = "" := by
          unfold generatePrescription; rw [hsvc]; rfl
        rw [hout] at hm
        cases hm
      · have hout : generatePrescription cleaned language svc = s := by
          unfold generatePrescription; rw [hsvc]; simp [jsOr, hs]
        rw [hout] at hm
        exact h s hsvc m hm

/-- Witness for `generatePrescription_subset_conditional`: a compliant run in
which the transcript mentions paracetamol, the service extracts exactly it,
and the plan medication therefore has textual support in the input. -/
theorem generatePrescription_subset_conditional_witness :
    "Paracetamol" ∈ medsInText prescriptionDictionary
      "Doctor: take paracetamol 500mg twice daily." :=
  generatePrescription_subset_conditional
    "Doctor: take paracetamol 500mg twice daily." "English"
    (fun _ => .ok (some "## Plan\n- Paracetamol | 500mg | Twice daily | Oral"))
    (by
      intro t ht m hm
      injection ht with h1
      injection h1 with h2
      subst h2
      have hz : planMedNames "## Plan\n- Paracetamol | 500mg | Twice daily | Oral"
          = ["Paracetamol"] := by decide
      rw [hz] at hm
      simp only [List.mem_singleton] at hm
      subst hm
      decide)
    "Paracetamol" (by decide)

/-- A hook state that is mid-recording and still carries an error message
from an earlier failed attempt. -/
def busyState : HookState :=
  { isRecording := true
    isPaused := false
    error := some "Microphone access denied."
    mediaRecorder := some
      { stream := { tracks := [{ stopped := false }] }
        state := RecState.recording
        pending := []
        mimeType := "audio/webm;codecs=opus" }
    audioChunks := []
    segmentTimer := some 20000 }

/-- Claim C6, counterexample: calling `startRecording` while recording is
already active is not a full no-op — `setError(null)` runs before the
re-entry guard, so a previously recorded error state is cleared even though
everything else is left alone. -/
theorem startRecording_busy_counterexample :
    (startRecording busyState { hasOnSegment := false, segmentDuration := none }
        (.ok { tracks := [] })).error = none
    ∧ busyState.error = some "Microphone access denied."
    ∧ startRecording busyState { hasOnSegment := false, segmentDuration := none }
        (.ok { tracks := [] }) ≠ busyState :=
  ⟨rfl, rfl, by decide⟩

/-- Claim C6 as amended: while recording is already active (a recorder
handle exists or `isRecording` is set), `startRecording` clears the error
state to `null` and does nothing else — it acquires no device, arms no
timer, and leaves the recorder handle, chunk list, and flags unchanged. -/
theorem startRecording_busy_noop_except_error (s : HookState)
    (o : StartOptions) (d : Except Unit MediaStream)
    (h : (s.mediaRecorder.isSome || s.isRecording) = true) :
    startRecording s o d = { s with error := none } := by
  unfold startRecording
  simp [h]

/-- Witness for `startRecording_busy_noop_except_error` at a concrete busy
state. -/
theorem startRecording_busy_noop_witness :
    startRecording busyState { hasOnSegment := true, segmentDuration := some 5000 }
        (.ok { tracks := [] })
      = { busyState with error := none } :=
  startRecording_busy_noop_except_error busyState
    { hasOnSegment := true, segmentDuration := some 5000 }
    (.ok { tracks := [] }) rfl

/-- Claim C7: when device acquisition fails, `startRecording` records the
distinct error message and nothing else changes: `isRecording` stays false,
no segment timer is armed, and no recorder handle is retained. -/
theorem startRecording_deviceFailure (s : HookState) (o : StartOptions)
    (h1 : s.mediaRecorder = none) (h2 : s.isRecording = false) :
    startRecording s o (.error ())
        = { s with error := some "Microphone access denied." }
    ∧ (startRecording s o (.error ())).isRecording = false
    ∧ (startRecording s o (.error ())).segmentTimer = s.segmentTimer
    ∧ (startRecording s o (.error ())).mediaRecorder = none := by
  have key : startRecording s o (.error ())
      = { s with error := some "Microphone access denied." } := by
    cases s
    simp_all [startRecording]
  exact ⟨key, by rw [key]; exact h2, by rw [key], by rw [key]; exact h1⟩

/-- Witness for `startRecording_deviceFailure` at a fresh idle state. -/
theorem startRecording_deviceFailure_witness :
    startRecording
        { isRecording := false, isPaused := false, error := none,
          mediaRecorder := none, audioChunks := [], segmentTimer := none }
        { hasOnSegment := true, segmentDuration := none } (.error ())
      = { isRecording := false, isPaused := false,
          error := some "Microphone access denied.",
          mediaRecorder := none, audioChunks := [], segmentTimer := none } :=
  (startRecording_deviceFailure
    { isRecording := false, isPaused := false, error := none,
      mediaRecorder := none, audioChunks := [], segmentTimer := none }
    { hasOnSegment := true, segmentDuration := none } rfl rfl).1

/-- The bytes of the full-encounter blob that `stopRecording` assembles:
every chunk delivered so far, plus the final `dataavailable` flush of the
recorder's buffer when the recorder was not already inactive. -/
def finalBytes (s : HookState) (r : Recorder) : List Nat :=
  ((if r.state ≠ RecState.inactive then
      pushChunk s.audioChunks { data := r.pending, type := r.mimeType }
    else s.audioChunks).map Blob.data).flatten

/-- Claim C5: `stopRecording` resolves `null` when no recorder was ever
started; when a recorder exists it clears the recorder handle, the chunk
list, the flags and the segment timer, stops every track of the underlying
device stream, and resolves `null` exactly when zero bytes were captured —
otherwise it resolves the full-encounter blob, never an empty-but-non-null
artifact. -/
theorem stopRecording_spec :
    (∀ s : HookState, s.mediaRecorder = none →
        stopRecording s = ({ s with segmentTimer := none }, none, none))
  ∧ (∀ (s : HookState) (r : Recorder), s.mediaRecorder = some r →
        (stopRecording s).1.mediaRecorder = none
      ∧ (stopRecording s).1.audioChunks = []
      ∧ (stopRecording s).1.isRecording = false
      ∧ (stopRecording s).1.segmentTimer = none
      ∧ (∀ ms ∈ (stopRecording s).2.2, ∀ t ∈ ms.tracks, t.stopped = true)
      ∧ ((stopRecording s).2.1 = none ↔ finalBytes s r = [])
      ∧ (∀ b, (stopRecording s).2.1 = some b →
          b.data = finalBytes s r ∧ 0 < b.size)) := by
  constructor
  · intro s h
    unfold stopRecording
    rw [show ({ s with segmentTimer := none } : HookState).mediaRecorder = none from h]
  · intro s r hr
    have hout : stopRecording s =
        (({ s with segmentTimer := none
                   mediaRecorder := none
                   audioChunks := []
                   isRecording := false
                   isPaused := false } : HookState),
         (if 0 < (finalBytes s r).length then
            some { data := finalBytes s r,
                   type := if r.mimeType = "" then "audio/webm" else r.mimeType }
          else none),
         some { tracks := r.stream.tracks.map fun _ => { stopped := true } }) := by
      unfold stopRecording finalBytes
      rw [show ({ s with segmentTimer := none } : HookState).mediaRecorder
            = some r from hr]
      rfl
    refine ⟨by rw [hout], by rw [hout], by rw [hout], by rw [hout], ?_, ?_, ?_⟩
    · rw [hout]
      intro ms hms t ht
      simp only [Option.mem_def, Option.some.injEq] at hms
      subst hms
      simp only [List.mem_map] at ht
      obtain ⟨x, _, hx⟩ := ht
      rw [← hx]
    · rw [hout]
      by_cases hpos : 0 < (finalBytes s r).length
      · simp only [if_pos hpos]
        constructor
        · intro h; cases h
        · intro h
          rw [h] at hpos
          cases hpos
      · simp only [if_neg hpos]
        constructor
        · intro _
          exact List.length_eq_zero.mp (Nat.eq_zero_of_not_pos hpos)
        · intro _; trivial
    · rw [hout]
      intro b hb
      by_cases hpos : 0 < (finalBytes s r).length
      · simp only [if_pos hpos, Option.some.injEq] at hb
        subst hb
        exact ⟨rfl, hpos⟩
      · simp only [if_neg hpos] at hb
        cases hb

/-- The recorder of the concrete stopping scenario: one live track, two
buffered bytes not yet delivered. -/
def stoppingRecorder : Recorder :=
  { stream := { tracks := [{ stopped := false }] }
    state := RecState.recording
    pending := [7, 8]
    mimeType := "audio/webm;codecs=opus" }

/-- A concrete mid-recording hook state used to witness `stopRecording_spec`:
one chunk already delivered, two bytes still buffered. -/
def stoppingState : HookState :=
  { isRecording := true
    isPaused := false
    error := none
    mediaRecorder := some stoppingRecorder
    audioChunks := [{ data := [5], type := "audio/webm;codecs=opus" }]
    segmentTimer := some 20000 }

/-- Witness for `stopRecording_spec`: stopping with no recorder resolves
`null`; stopping the concrete mid-recording state clears the handle, and
its resolved blob is non-null exactly because bytes were captured. -/
theorem stopRecording_spec_witness :
    stopRecording
        { isRecording := false, isPaused := false, error := none,
          mediaRecorder := none, audioChunks := [], segmentTimer := none }
      = ({ isRecording := false, isPaused := false, error := none,
           mediaRecorder := none, audioChunks := [], segmentTimer := none },
         none, none)
    ∧ (stopRecording stoppingState).1.mediaRecorder = none
    ∧ ((stopRecording stoppingState).2.1 = none
        ↔ finalBytes stoppingState stoppingRecorder = []) :=
  ⟨stopRecording_spec.1
      { isRecording := false, isPaused := false, error := none,
        mediaRecorder := none, audioChunks := [], segmentTimer := none } rfl,
   (stopRecording_spec.2 stoppingState stoppingRecorder rfl).1,
   (stopRecording_spec.2 stoppingState stoppingRecorder rfl).2.2.2.2.2.1⟩

/-- Flushing the recorder's buffer into the chunk list appends exactly its
bytes to the concatenated audio: an empty event is dropped by the
`ondataavailable` guard but contributes nothing anyway. -/
theorem flatten_pushChunk (cs : List Blob) (b : Blob) :
    ((pushChunk cs b).map Blob.data).flatten
      = (cs.map Blob.data).flatten ++ b.data := by
  unfold pushChunk
  split
  · simp
  · next h =>
    have hb : b.data = [] :=
      List.length_eq_zero.mp (Nat.eq_zero_of_not_pos h)
    simp [hb]

/-- The `ondataavailable` guard keeps every stored chunk non-empty. -/
theorem pushChunk_nonempty (cs : List Blob) (b : Blob)
    (hcs : ∀ c ∈ cs, c.data ≠ []) :
    ∀ c ∈ pushChunk cs b, c.data ≠ [] := by
  unfold pushChunk
  split
  · next hpos =>
    intro c hc
    rcases List.mem_append.mp hc with h | h
    · exact hcs c h
    · rw [List.mem_singleton.mp h]
      intro hnil
      rw [show (Blob.size b = b.data.length) from rfl, hnil] at hpos
      cases hpos
  · exact hcs

/-- When every chunk is non-empty, the concatenated audio is empty only when
there are no chunks at all. -/
theorem chunks_eq_nil_of_flatten (cs : List Blob)
    (hcs : ∀ c ∈ cs, c.data ≠ [])
    (h : (cs.map Blob.data).flatten = []) : cs = [] := by
  cases cs with
  | nil => rfl
  | cons c cs' =>
    exfalso
    apply hcs c (by simp)
    simp only [List.map_cons, List.flatten_cons, List.append_eq_nil] at h
    exact h.1

/-- Helper for claim C8: from any state whose recorder is actively recording
and whose stored chunks are all non-empty, the capture loop emits exactly
the cumulative stream — after each delivery, the emitted segment (when the
running total is non-empty) is ALL audio captured in the encounter so far,
not a delta. -/
theorem runTicks_eq_cumEmissions (ds : List (List Nat)) :
    ∀ (s : HookState) (r : Recorder),
      s.mediaRecorder = some r → r.state = RecState.recording →
      (∀ c ∈ s.audioChunks, c.data ≠ []) →
      runTicks s ds
        = cumEmissions ((s.audioChunks.map Blob.data).flatten ++ r.pending) ds := by
  induction ds with
  | nil => intro s r _ _ _; rfl
  | cons d ds ih =>
    intro s r hr hrec hcs
    have hstep : segmentTick (deliver s d)
        = ({ s with
              audioChunks := pushChunk s.audioChunks
                { data := r.pending ++ d, type := r.mimeType }
              mediaRecorder := some { r with pending := [] } },
           if 0 < (pushChunk s.audioChunks
                { data := r.pending ++ d, type := r.mimeType }).length then
             some { data := ((pushChunk s.audioChunks
                      { data := r.pending ++ d, type := r.mimeType }).map
                      Blob.data).flatten,
                    type := r.mimeType }
           else none) := by
      unfold deliver segmentTick
      rw [hr]
      simp [hrec]
      split <;> rfl
    have hstep1 : (segmentTick (deliver s d)).1
        = { s with
            audioChunks := pushChunk s.audioChunks
              { data := r.pending ++ d, type := r.mimeType }
            mediaRecorder := some { r with pending := [] } } := by
      rw [hstep]
    have hstep2 : (segmentTick (deliver s d)).2
        = if 0 < (pushChunk s.audioChunks
              { data := r.pending ++ d, type := r.mimeType }).length then
            some { data := ((pushChunk s.audioChunks
                    { data := r.pending ++ d, type := r.mimeType }).map
                    Blob.data).flatten,
                   type := r.mimeType }
          else none := by
      rw [hstep]
    have hflat : ((pushChunk s.audioChunks
          { data := r.pending ++ d, type := r.mimeType }).map Blob.data).flatten
        = (s.audioChunks.map Blob.data).flatten ++ (r.pending ++ d) :=
      flatten_pushChunk _ _
    have hrun : runTicks s (d :: ds)
        = (match (segmentTick (deliver s d)).2 with
           | some b => [b.data]
           | none => []) ++ runTicks (segmentTick (deliver s d)).1 ds := rfl
    have hrec' : runTicks (segmentTick (deliver s d)).1 ds
        = cumEmissions ((s.audioChunks.map Blob.data).flatten ++ (r.pending ++ d)) ds := by
      rw [hstep1]
      have := ih
        { s with
          audioChunks := pushChunk s.audioChunks
            { data := r.pending ++ d, type := r.mimeType }
          mediaRecorder := some { r with pending := [] } }
        { r with pending := [] } rfl hrec
        (pushChunk_nonempty _ _ hcs)
      simpa [hflat] using this
    have hcons : cumEmissions
          ((s.audioChunks.map Blob.data).flatten ++ r.pending) (d :: ds)
        = (if (((s.audioChunks.map Blob.data).flatten ++ r.pending) ++ d).isEmpty
             then []
             else [((s.audioChunks.map Blob.data).flatten ++ r.pending) ++ d])
          ++ cumEmissions
              (((s.audioChunks.map Blob.data).flatten ++ r.pending) ++ d) ds := rfl
    rw [hrun, hrec', hcons, List.append_assoc]
    congr 1
    by_cases hnil : (s.audioChunks.map Blob.data).flatten ++ (r.pending ++ d) = []
    · have hA := (List.append_eq_nil.mp hnil).1
      have hpd := (List.append_eq_nil.mp hnil).2
      have hcs0 : s.audioChunks = [] := chunks_eq_nil_of_flatten _ hcs hA
      have hchunks : pushChunk s.audioChunks
          { data := r.pending ++ d, type := r.mimeType } = [] := by
        unfold pushChunk
        have hb0 : ¬ 0 < ({ data := r.pending ++ d, type := r.mimeType } : Blob).size := by
          show ¬ 0 < (r.pending ++ d).length
          rw [hpd]
          decide
        rw [if_neg hb0, hcs0]
      have hlen : ¬ 0 < (pushChunk s.audioChunks
          { data := r.pending ++ d, type := r.mimeType }).length := by
        rw [hchunks]
        decide
      rw [hstep2, if_neg hlen, hnil]
      rfl
    · have hlen : 0 < (pushChunk s.audioChunks
          { data := r.pending ++ d, type := r.mimeType }).length := by
        rw [List.length_pos]
        intro hE
        apply hnil
        rw [← hflat, hE]
        rfl
      have hne : ((s.audioChunks.map Blob.data).flatten ++ (r.pending ++ d)).isEmpty
          = false := by
        cases hacc : (s.audioChunks.map Blob.data).flatten ++ (r.pending ++ d) with
        | nil => exact absurd hacc hnil
        | cons x xs => rfl
      rw [hflat] at hstep2
      rw [hstep2, if_pos hlen, hne]
      rfl

/-- Claim C8: when `startRecording` is called with an `onSegment` callback
from a non-recording state, it arms the segment timer with interval
`segmentDuration`, defaulting to 20000 ms when the caller omits it; and
while capture is active, every timer firing that finds captured audio emits
a segment containing ALL audio captured so far in the encounter (the
cumulative stream), not a delta since the previous segment. -/
theorem segment_emission_spec :
    (∀ (s : HookState) (o : StartOptions) (stream : MediaStream),
        s.mediaRecorder = none → s.isRecording = false → o.hasOnSegment = true →
        (startRecording s o (.ok stream)).segmentTimer
          = some (o.segmentDuration.getD 20000))
  ∧ (∀ (s : HookState) (r : Recorder) (ds : List (List Nat)),
        s.mediaRecorder = some r → r.state = RecState.recording →
        (∀ c ∈ s.audioChunks, c.data ≠ []) →
        runTicks s ds
          = cumEmissions ((s.audioChunks.map Blob.data).flatten ++ r.pending) ds) := by
  constructor
  · intro s o stream h1 h2 h3
    unfold startRecording
    simp [h1, h2, h3]
  · intro s r ds hr hrec hcs
    exact runTicks_eq_cumEmissions ds s r hr hrec hcs

/-- The recorder of the concrete cumulative-emission scenario: freshly
started, nothing buffered yet. -/
def freshRecorder : Recorder :=
  { stream := { tracks := [{ stopped := false }] }
    state := RecState.recording
    pending := []
    mimeType := "audio/webm;codecs=opus" }

/-- A concrete hook state just after `startRecording` succeeded with an
`onSegment` callback: used to witness `segment_emission_spec`. -/
def freshRecordingState : HookState :=
  { isRecording := true
    isPaused := false
    error := none
    mediaRecorder := some freshRecorder
    audioChunks := []
    segmentTimer := some 20000 }

/-- Witness for `segment_emission_spec`: omitting `segmentDuration` arms the
timer at 20000 ms, and two ticks with deliveries `[1, 2]` then `[3]` emit
the cumulative segments `[1, 2]` and `[1, 2, 3]` — the second emission
repeats the earlier audio rather than sending only the delta. -/
theorem segment_emission_spec_witness :
    (startRecording
        { isRecording := false, isPaused := false, error := none,
          mediaRecorder := none, audioChunks := [], segmentTimer := none }
        { hasOnSegment := true, segmentDuration := none }
        (.ok { tracks := [{ stopped := false }] })).segmentTimer = some 20000
    ∧ runTicks freshRecordingState [[1, 2], [3]] = [[1, 2], [1, 2, 3]] := by
  constructor
  · exact segment_emission_spec.1
      { isRecording := false, isPaused := false, error := none,
        mediaRecorder := none, audioChunks := [], segmentTimer := none }
      { hasOnSegment := true, segmentDuration := none }
      { tracks := [{ stopped := false }] } rfl rfl rfl
  · have h := segment_emission_spec.2 freshRecordingState freshRecorder
      [[1, 2], [3]] rfl rfl (by intro c hc; cases hc)
    rw [h]
    decide
